import Mathlib

/-!
Verification of the io-gate framing/codec/pipeline layer.

Shallow embedding of the Rust sources:
  - `src/message.rs`: the message codec (`MessageRaw`, `Message`, the
    enumerated argument types, CAN address bit-packing);
  - `src/shutters.rs`: the shutter command serialisation used by
    `Message::ShutterCmd`;
  - `src/comm.rs`: the per-read frame synchronizer (`reader`);
  - `src/main.rs`: the router arms (set-output egress, output-changed
    ingress, periodic time announcement).

Rust `u8`/`u16`/`u32` values are modelled as `Nat`; where the source can
overflow or truncate this is made explicit.  Rust functions that can panic
(out-of-bounds slicing, `copy_from_slice` on mismatched lengths) are
modelled with an explicit failure value (`none` / `ReadResult.crash`) so
that panics are visible facts of the model.  The Rust constructors named
`StatusIO` / `SetIO` are spelled `StatusIo` / `SetIo` here.
-/

namespace IoGate

/-- Broadcast device address: `pub const BROADCAST_ADDRESS: u8 = 0x3f` in
`src/message.rs`. -/
def BROADCAST_ADDRESS : Nat := 0x3f

/-- Trigger enum from `src/consts.rs` (`#[repr(u8)]`, discriminants 0..5). -/
inductive Trigger where
  | ShortClick
  | LongClick
  | Activated
  | Deactivated
  | LongActivated
  | LongDeactivated
deriving DecidableEq, Repr

/-- `Trigger::to_bytes` (`self as u8`). -/
def Trigger.to_bytes : Trigger → Nat
  | .ShortClick => 0
  | .LongClick => 1
  | .Activated => 2
  | .Deactivated => 3
  | .LongActivated => 4
  | .LongDeactivated => 5

/-- `Trigger::from_u8` in `src/message.rs`. -/
def Trigger.from_u8 (raw : Nat) : Option Trigger :=
  match raw with
  | 0 => some .ShortClick
  | 1 => some .LongClick
  | 2 => some .Activated
  | 3 => some .Deactivated
  | 4 => some .LongActivated
  | 5 => some .LongDeactivated
  | _ => none

/-- `args::OutputChangeRequest` from `src/message.rs` (`#[repr(u8)]`). -/
inductive OutputChangeRequest where
  | Off
  | On
  | Toggle
deriving DecidableEq, Repr

/-- `OutputChangeRequest::to_bytes` (`self as u8`). -/
def OutputChangeRequest.to_bytes : OutputChangeRequest → Nat
  | .Off => 0
  | .On => 1
  | .Toggle => 2

/-- `OutputChangeRequest::from_u8`. -/
def OutputChangeRequest.from_u8 (raw : Nat) : Option OutputChangeRequest :=
  match raw with
  | 0 => some .Off
  | 1 => some .On
  | 2 => some .Toggle
  | _ => none

/-- `OutputChangeRequest::from_bool`. -/
def OutputChangeRequest.from_bool (b : Bool) : OutputChangeRequest :=
  if b then .On else .Off

/-- `OutputChangeRequest::try_to_bool`: `Toggle` has no boolean image. -/
def OutputChangeRequest.try_to_bool : OutputChangeRequest → Option Bool
  | .Off => some false
  | .On => some true
  | .Toggle => none

/-- `args::IOState` from `src/message.rs` (`#[repr(u8)]`). -/
inductive IOState where
  | Off
  | On
  | Error
  | Unknown
deriving DecidableEq, Repr

/-- `IOState::to_bytes` (`self as u8`). -/
def IOState.to_bytes : IOState → Nat
  | .Off => 0
  | .On => 1
  | .Error => 2
  | .Unknown => 3

/-- `IOState::from_u8`. -/
def IOState.from_u8 (raw : Nat) : Option IOState :=
  match raw with
  | 0 => some .Off
  | 1 => some .On
  | 2 => some .Error
  | 3 => some .Unknown
  | _ => none

/-- `args::IOType`: an index naming either an input or an output. -/
inductive IOType where
  | Input (idx : Nat)
  | Output (idx : Nat)
deriving DecidableEq, Repr

/-- `shutters::TargetPosition` (height and tilt, 0-100, stored as `u8`). -/
structure TargetPosition where
  height : Nat
  tilt : Nat
deriving DecidableEq, Repr

/-- `shutters::Cmd` from `src/shutters.rs` (Rust `SetIO` spelled `SetIo`). -/
inductive Cmd where
  | Go (position : TargetPosition)
  | Open
  | Close
  | Tilt (tilt : Nat)
  | TiltClose
  | TiltOpen
  | TiltHalf
  | TiltReverse
  | SetIo (down : Nat) (up : Nat)
deriving DecidableEq, Repr

/-- `Cmd::to_raw` from `src/shutters.rs`: fills a 5-byte zeroed slice with
the command code and its arguments. -/
def Cmd.to_raw_bytes : Cmd → List Nat
  | .Go p => [0x01, p.height, p.tilt, 0, 0]
  | .Open => [0x02, 0, 0, 0, 0]
  | .Close => [0x03, 0, 0, 0, 0]
  | .Tilt t => [0x04, t, 0, 0, 0]
  | .TiltClose => [0x05, 0, 0, 0, 0]
  | .TiltOpen => [0x06, 0, 0, 0, 0]
  | .TiltHalf => [0x07, 0, 0, 0, 0]
  | .TiltReverse => [0x08, 0, 0, 0, 0]
  | .SetIo down up => [0x10, down, up, 0, 0]

/-- Domain `Message` enum from `src/message.rs` (Rust `StatusIO` spelled
`StatusIo`; field order as in the source). -/
inductive Message where
  | Error (code : Nat)
  | Info (code : Nat) (arg : Nat)
  | OutputChanged (output : Nat) (state : OutputChangeRequest)
  | StatusIo (io : IOType) (state : IOState)
  | InputChanged (input : Nat) (trigger : Trigger)
  | SetOutput (output : Nat) (state : OutputChangeRequest)
  | TriggerInput (input : Nat) (trigger : Trigger)
  | ShutterCmd (shutter_idx : Nat) (cmd : Cmd)
  | RequestStatus
  | Ping (body : Nat)
  | Pong (body : Nat)
  | Status (uptime : Nat) (errors : Nat) (warnings : Nat)
  | TimeAnnouncement (year : Nat) (month : Nat) (day : Nat) (hour : Nat)
      (minute : Nat) (second : Nat) (day_of_week : Nat)
  | CallProcedure (proc_id : Nat)
deriving DecidableEq, Repr

/-- `MessageRaw` from `src/message.rs`: addr and msg_type are `u8`, length
is `u8`, data is a fixed `[u8; 8]` buffer (modelled as an 8-element list in
every record the code constructs). -/
structure MessageRaw where
  addr : Nat
  msg_type : Nat
  length : Nat
  data : List Nat
deriving DecidableEq, Repr

/-- Little-endian bytes of a `u16` (`u16::to_le_bytes`). -/
def u16_to_le (n : Nat) : List Nat := [n % 256, n / 256 % 256]

/-- `u16::from_le_bytes([b0, b1])`. -/
def u16_from_le (b0 b1 : Nat) : Nat := b0 + 256 * b1

/-- Little-endian bytes of a `u32` (`u32::to_le_bytes`). -/
def u32_to_le (n : Nat) : List Nat :=
  [n % 256, n / 256 % 256, n / 65536 % 256, n / 16777216 % 256]

/-- `u32::from_le_bytes([b0, b1, b2, b3])`. -/
def u32_from_le (b0 b1 b2 b3 : Nat) : Nat :=
  b0 + 256 * b1 + 65536 * b2 + 16777216 * b3

/-- `MessageRaw::from_bytes(addr, msg_type, data)`: sets `length` to the
slice length and copies the slice into the zeroed 8-byte buffer.  The Rust
code indexes `raw.data[0..data.len()]` on a `[u8; 8]`, which panics when
the slice is longer than 8 bytes; that panic is modelled as `none`. -/
def MessageRaw.from_bytes (addr msg_type : Nat) (data : List Nat) :
    Option MessageRaw :=
  if data.length ≤ 8 then
    some { addr := addr, msg_type := msg_type, length := data.length,
           data := data ++ List.replicate (8 - data.length) 0 }
  else
    none

/-- `MessageRaw::to_can_addr`: `((msg_type as u16 & 0x1F) << 6) | (addr as
u16 & 0x3F)` (the result is at most 0x7FF, so the `u16` arithmetic cannot
wrap). -/
def MessageRaw.to_can_addr (m : MessageRaw) : Nat :=
  ((m.msg_type &&& 0x1F) <<< 6) ||| (m.addr &&& 0x3F)

/-- `MessageRaw::split_can_addr`: returns `(msg_type, device_addr)` as the
source does. -/
def MessageRaw.split_can_addr (can_addr : Nat) : Nat × Nat :=
  ((can_addr >>> 6) &&& 0x1F, can_addr &&& 0x3F)

/-- `Message::to_raw(addr)` from `src/message.rs`: msg_type, length and the
8-byte payload buffer per variant (layout written exactly as the
`copy_from_slice` calls lay the bytes out; unused tail bytes stay 0 from
`MessageRaw::default()`). -/
def Message.to_raw (m : Message) (addr : Nat) : MessageRaw :=
  match m with
  | .Error code =>
      ⟨addr, 0x02, 4, u32_to_le code ++ [0, 0, 0, 0]⟩
  | .Info code arg =>
      ⟨addr, 0x12, 6, u16_to_le code ++ u32_to_le arg ++ [0, 0]⟩
  | .SetOutput output state =>
      ⟨addr, 0x08, 2, [output, state.to_bytes, 0, 0, 0, 0, 0, 0]⟩
  | .OutputChanged output state =>
      ⟨addr, 0x04, 2, [output, state.to_bytes, 0, 0, 0, 0, 0, 0]⟩
  | .StatusIo io state =>
      match io with
      | .Input idx =>
          ⟨addr, 0x0E, 3, [idx, 0, state.to_bytes, 0, 0, 0, 0, 0]⟩
      | .Output idx =>
          ⟨addr, 0x0E, 3, [idx, 1, state.to_bytes, 0, 0, 0, 0, 0]⟩
  | .InputChanged input trigger =>
      ⟨addr, 0x05, 2, [input, trigger.to_bytes, 0, 0, 0, 0, 0, 0]⟩
  | .CallProcedure proc_id =>
      ⟨addr, 0x0A, 1, [proc_id, 0, 0, 0, 0, 0, 0, 0]⟩
  | .ShutterCmd shutter_idx cmd =>
      ⟨addr, 0x0B, 7, shutter_idx :: cmd.to_raw_bytes ++ [0, 0]⟩
  | .Status uptime errors warnings =>
      ⟨addr, 0x10, 8, u32_to_le uptime ++ u16_to_le errors ++ u16_to_le warnings⟩
  | .TimeAnnouncement year month day hour minute second day_of_week =>
      ⟨addr, 0x11, 8, u16_to_le year ++ [month, day, hour, minute, second, day_of_week]⟩
  | .Ping body =>
      ⟨addr, 0x1E, 2, u16_to_le body ++ [0, 0, 0, 0, 0, 0]⟩
  | .Pong body =>
      ⟨addr, 0x1D, 2, u16_to_le body ++ [0, 0, 0, 0, 0, 0]⟩
  | .TriggerInput input trigger =>
      ⟨addr, 0x09, 2, [input, trigger.to_bytes, 0, 0, 0, 0, 0, 0]⟩
  | .RequestStatus =>
      ⟨addr, 0x0D, 0, [0, 0, 0, 0, 0, 0, 0, 0]⟩

/-- `Message::from_raw` from `src/message.rs`.  Dispatch on `msg_type` in
source order; arms for SetOutput, TriggerInput, CallProc,
TimeAnnouncement, Error, OutputChanged, InputChanged and StatusIo check
`length` first; the RequestStatus, Ping, Pong and Info arms read the fixed
8-byte buffer without any length check, exactly as the source does.
Reading `raw.data[i]` on the fixed `[u8; 8]` buffer cannot panic; it is
modelled with `List.getD` (default 0). -/
def Message.from_raw (raw : MessageRaw) : Option Message :=
  let d := fun i => raw.data.getD i 0
  if raw.msg_type = 0x08 then
    if raw.length ≠ 2 then none
    else match OutputChangeRequest.from_u8 (d 1) with
      | none => none
      | some state => some (.SetOutput (d 0) state)
  else if raw.msg_type = 0x09 then
    if raw.length ≠ 2 then none
    else match Trigger.from_u8 (d 1) with
      | none => none
      | some trigger => some (.TriggerInput (d 0) trigger)
  else if raw.msg_type = 0x0A then
    if raw.length ≠ 1 then none
    else some (.CallProcedure (d 0))
  else if raw.msg_type = 0x11 then
    if raw.length ≠ 8 then none
    else some (.TimeAnnouncement (u16_from_le (d 0) (d 1)) (d 2) (d 3) (d 4)
      (d 5) (d 6) (d 7))
  else if raw.msg_type = 0x0D then
    some .RequestStatus
  else if raw.msg_type = 0x1E then
    some (.Ping (u16_from_le (d 0) (d 1)))
  else if raw.msg_type = 0x1D then
    some (.Pong (u16_from_le (d 0) (d 1)))
  else if raw.msg_type = 0x12 then
    some (.Info (u16_from_le (d 0) (d 1)) 0)
  else if raw.msg_type = 0x02 then
    if raw.length ≠ 4 then none
    else some (.Error (u32_from_le (d 0) (d 1) (d 2) (d 3)))
  else if raw.msg_type = 0x04 then
    if raw.length ≠ 2 then none
    else match OutputChangeRequest.from_u8 (d 1) with
      | none => none
      | some state => some (.OutputChanged (d 0) state)
  else if raw.msg_type = 0x05 then
    if raw.length ≠ 2 then none
    else match Trigger.from_u8 (d 1) with
      | none => none
      | some trigger => some (.InputChanged (d 0) trigger)
  else if raw.msg_type = 0x0E then
    if raw.length ≠ 3 then none
    else match IOState.from_u8 (d 2) with
      | none => none
      | some state =>
          match d 1 with
          | 0 => some (.StatusIo (.Input (d 0)) state)
          | 1 => some (.StatusIo (.Output (d 0)) state)
          | _ => none
  else
    none

/-- The msg_type codes `Message::from_raw` dispatches on (every other code
falls to the logging catch-all arm returning `None`). -/
def knownMsgTypes : List Nat :=
  [0x02, 0x04, 0x05, 0x08, 0x09, 0x0A, 0x0D, 0x0E, 0x11, 0x12, 0x1D, 0x1E]

/-- Outcome of one iteration of the `reader` loop in `src/comm.rs` on the
chunk just read: the chunk is skipped (preamble/length failure, with a log
line), a `MessageRaw` is extracted and sent, or the iteration panics.
`crash` models the out-of-range slice `&packet[3..3 + length]` when the
declared length byte exceeds 8 and the (then unreachable)
`copy_from_slice` panic inside `MessageRaw::from_bytes`. -/
inductive ReadResult where
  | skip
  | crash
  | record (r : MessageRaw)
deriving DecidableEq, Repr

/-- One iteration of `reader` from `src/comm.rs`, after `port.read` put
`read_len > 0` fresh bytes at the front of the 512-byte buffer `buf`.
Checks `buf[0] = 0x21` and `buf[1] = 0x7C` (skip otherwise), then the
total-length check `body_len + PREAMBULE_LENGTH > read_len` (skip), then
extracts `packet = buf[2..13]`, reads addr, msg_type and the length byte,
slices `packet[3..3 + length]` (a panic when `3 + length > 11`) and builds
the record with `MessageRaw::from_bytes`.  The `read_len <
2 + CAN_MESSAGE_LENGTH` branch in the source only prints and falls
through, so it has no effect on the result. -/
def readerStep (buf : List Nat) (read_len : Nat) : ReadResult :=
  if buf.getD 0 0 ≠ 0x21 then .skip
  else if buf.getD 1 0 ≠ 0x7C then .skip
  else if 11 + 2 > read_len then .skip
  else
    let packet := (buf.drop 2).take 11
    let addr := packet.getD 0 0
    let msg_type := packet.getD 1 0
    let length := packet.getD 2 0
    if 3 + length ≤ 11 then
      match MessageRaw.from_bytes addr msg_type ((packet.drop 3).take length) with
      | some r => .record r
      | none => .crash
    else .crash

/-- Effect of `port.read(&mut buf)` returning `chunk.length` bytes: the
first `chunk.length` buffer cells are overwritten, the rest keep their old
contents. -/
def updateBuf (chunk old : List Nat) : List Nat :=
  chunk ++ old.drop chunk.length

/-- Collaborator-facing event pushed by the USB→MQTT router arm
(`homeassistant::Outgoing::OutputChanged` in `src/main.rs`). -/
inductive HaEvent where
  | outputChanged (device : Nat) (output : Nat) (isOn : Bool)
deriving DecidableEq, Repr

/-- The USB→MQTT router body from `src/main.rs` for one ingress record:
decode it, and on `Message::OutputChanged` convert the state with
`try_to_bool` — forwarding an `OutputChanged` event on success, logging
and skipping on `Toggle`.  Decode failures and every other variant (Info
logging included) produce no collaborator-facing state-change event. -/
def routeInbound (raw : MessageRaw) : Option HaEvent :=
  match Message.from_raw raw with
  | some ( Message.OutputChanged output state) =>
      match state.try_to_bool with
      | some b => some ( HaEvent.outputChanged raw.addr output b)
      | none => none
  | _ => none

/-- The MQTT→USB router body from `src/main.rs` for a
`homeassistant::Incoming::SetOutput { device, output, on }` command: build
`Message::SetOutput` with `from_bool` and encode it to the device
address. -/
def handleSetOutput (device output : Nat) (isOn : Bool) : MessageRaw :=
  ( Message.SetOutput output ( OutputChangeRequest.from_bool isOn)).to_raw device

/-- The periodic timer task body from `src/main.rs` at a fixed instant
(the chrono field reads `year()`, `month()`, `day()`, `hour()`,
`minute()`, `second()`, `weekday().number_from_monday()` are passed in as
numbers): builds a `TimeAnnouncement` and encodes it with `let addr = 0`
exactly as the source does. -/
def timerRecord (year month day hour minute second day_of_week : Nat) :
    MessageRaw :=
  ( Message.TimeAnnouncement year month day hour minute second
    day_of_week).to_raw 0

end IoGate

namespace IoGate

section Claims

/-- Helper: the CAN-address pack/unpack round trip on the bounded
bit-ranges, checked by exhaustive evaluation of all 32 × 64 pairs. -/
lemma split_to_can_core : ∀ t, t < 32 → ∀ a, a < 64 →
    MessageRaw.split_can_addr (((t &&& 31) <<< 6) ||| (a &&& 63)) = (t, a) := by
  decide

/-- Claim C10: `split_can_addr` is total over all 2^16 inputs: the device
address component is at most 63 and the msg_type component at most 31, so
both fit in a `u8` and the `try_into().unwrap()` conversions cannot
fail. -/
theorem split_can_addr_total (c : Nat) (h : c < 65536) :
    ( MessageRaw.split_can_addr c).1 ≤ 31 ∧
    ( MessageRaw.split_can_addr c).2 ≤ 63 ∧
    ( MessageRaw.split_can_addr c).1 < 256 ∧
    ( MessageRaw.split_can_addr c).2 < 256 := by
  have h1 : (c >>> 6) &&& 31 ≤ 31 := Nat.and_le_right
  have h2 : c &&& 63 ≤ 63 := Nat.and_le_right
  unfold MessageRaw.split_can_addr
  exact ⟨h1, h2, by omega, by omega⟩

/-- Witness for C10 at the largest `u16` input. -/
theorem split_can_addr_total_witness :
    ( MessageRaw.split_can_addr 65535).1 ≤ 31 ∧
    ( MessageRaw.split_can_addr 65535).2 ≤ 63 ∧
    ( MessageRaw.split_can_addr 65535).1 < 256 ∧
    ( MessageRaw.split_can_addr 65535).2 < 256 :=
  split_can_addr_total 65535 (by decide)

/-- Claim C5: for addr in [0,63] and msg_type in [0,31], splitting the
combined 11-bit CAN address recovers exactly the original msg_type and
addr, and the combined value is `((msg_type & 0x1F) << 6) | (addr &
0x3F)`. -/
theorem can_addr_roundtrip (m : MessageRaw) (ht : m.msg_type < 32)
    (ha : m.addr < 64) :
    MessageRaw.split_can_addr m.to_can_addr = (m.msg_type, m.addr) ∧
    m.to_can_addr = ((m.msg_type &&& 0x1F) <<< 6) ||| (m.addr &&& 0x3F) :=
  ⟨split_to_can_core m.msg_type ht m.addr ha, rfl⟩

/-- Witness for C5 at msg_type 31, addr 63. -/
theorem can_addr_roundtrip_witness :
    MessageRaw.split_can_addr ( MessageRaw.to_can_addr ⟨63, 31, 0, []⟩) = (31, 63) ∧
    MessageRaw.to_can_addr ⟨63, 31, 0, []⟩ = ((31 &&& 0x1F) <<< 6) ||| (63 &&& 0x3F) :=
  can_addr_roundtrip ⟨63, 31, 0, []⟩ (by decide) (by decide)

/-- Claim C1 (code bug): a well-formed preamble plus 11-byte CAN body whose
declared length byte is 9 makes the reader slice `&packet[3..3 + 9]` out of
the 11-byte packet — a panic, not a logged skip — and
`MessageRaw::from_bytes` on a 9-byte slice likewise panics copying into the
8-byte buffer: neither is total over length bytes 9..=255. -/
theorem reader_length_byte_overflow_panics :
    readerStep [0x21, 0x7C, 0, 0, 9, 0, 0, 0, 0, 0, 0, 0, 0] 13 =
      ReadResult.crash ∧
    MessageRaw.from_bytes 0 0 [1, 2, 3, 4, 5, 6, 7, 8, 9] = none := by
  decide

/-- Claim C4 (code bug): at the fixed instant 2024-03-01 10:15:30 Friday
the timer task produces msg_type 0x11, length 8 and the specified payload,
but addresses the record to 0 — not to the broadcast address 63 the spec
requires. -/
theorem time_announcement_addressed_to_zero :
    timerRecord 2024 3 1 10 15 30 5 =
      ⟨0, 0x11, 8, [232, 7, 3, 1, 10, 15, 30, 5]⟩ ∧
    ( timerRecord 2024 3 1 10 15 30 5).addr ≠ BROADCAST_ADDRESS := by
  decide

/-- Claim C8: the router maps `setOutput(device=2, output=5, on=true)` to
the record with addr 2, msg_type 0x08, length 2 and payload `[5, 1]`; in
general for any device, output and boolean, the record is addressed to the
device and carries `[output, on as 0/1]`. -/
theorem set_output_command_record :
    handleSetOutput 2 5 true = ⟨2, 0x08, 2, [5, 1, 0, 0, 0, 0, 0, 0]⟩ ∧
    ∀ device output isOn,
      handleSetOutput device output isOn =
        ⟨device, 0x08, 2,
          [output, if isOn then 1 else 0, 0, 0, 0, 0, 0, 0]⟩ := by
  constructor
  · rfl
  · intro d o b
    cases b <;>
      simp [handleSetOutput, OutputChangeRequest.from_bool, Message.to_raw,
        OutputChangeRequest.to_bytes]

end Claims

end IoGate

namespace IoGate

section Claims2

/-- Claim C7: decoding a record whose msg_type is outside the known table
returns `none` — never a message, never a panic — whatever the length and
payload. -/
theorem unknown_type_decode_fails (raw : MessageRaw)
    (h : raw.msg_type ∉ knownMsgTypes) : Message.from_raw raw = none := by
  simp [knownMsgTypes] at h
  obtain ⟨h2, h4, h5, h8, h9, hA, hD, hE, h11, h12, h1D, h1E⟩ := h
  simp [Message.from_raw, h2, h4, h5, h8, h9, hA, hD, hE, h11, h12, h1D, h1E]

/-- Witness for C7 at the reserved low-priority grouped type 0x1F. -/
theorem unknown_type_decode_fails_witness :
    Message.from_raw ⟨0, 0x1F, 0, [0, 0, 0, 0, 0, 0, 0, 0]⟩ = none :=
  unknown_type_decode_fails ⟨0, 0x1F, 0, [0, 0, 0, 0, 0, 0, 0, 0]⟩ (by decide)

/-- Counterexample to C3 as stated: a Ping record with length 7 (required
length is 2) decodes successfully instead of failing with a length
mismatch. -/
theorem ping_wrong_length_decodes :
    Message.from_raw ⟨0, 0x1E, 7, [1, 2, 0, 0, 0, 0, 0, 0]⟩ =
      some ( Message.Ping 513) := by
  decide

/-- Claim C3 as amended: decoding a known-type record whose length differs
from the type's required length fails for SetOutput, TriggerInput,
CallProc, TimeAnnouncement, Error, OutputChanged, InputChanged and
StatusIO — but the RequestStatus, Ping, Pong and Info arms perform no
length check and decode successfully for every length byte. -/
theorem length_validation_amended (raw : MessageRaw) :
    ((raw.msg_type = 0x08 ∨ raw.msg_type = 0x09 ∨ raw.msg_type = 0x04 ∨
        raw.msg_type = 0x05) → raw.length ≠ 2 → Message.from_raw raw = none) ∧
    (raw.msg_type = 0x0A → raw.length ≠ 1 → Message.from_raw raw = none) ∧
    (raw.msg_type = 0x11 → raw.length ≠ 8 → Message.from_raw raw = none) ∧
    (raw.msg_type = 0x02 → raw.length ≠ 4 → Message.from_raw raw = none) ∧
    (raw.msg_type = 0x0E → raw.length ≠ 3 → Message.from_raw raw = none) ∧
    (raw.msg_type = 0x0D → Message.from_raw raw = some Message.RequestStatus) ∧
    (raw.msg_type = 0x1E → Message.from_raw raw =
      some ( Message.Ping (u16_from_le (raw.data.getD 0 0) (raw.data.getD 1 0)))) ∧
    (raw.msg_type = 0x1D → Message.from_raw raw =
      some ( Message.Pong (u16_from_le (raw.data.getD 0 0) (raw.data.getD 1 0)))) ∧
    (raw.msg_type = 0x12 → Message.from_raw raw =
      some ( Message.Info (u16_from_le (raw.data.getD 0 0) (raw.data.getD 1 0)) 0)) := by
  refine ⟨?_, ?_, ?_, ?_, ?_, ?_, ?_, ?_, ?_⟩
  · rintro (h | h | h | h) hl <;> simp [Message.from_raw, h, hl]
  all_goals intro h
  any_goals intro hl
  all_goals simp [Message.from_raw, h]
  all_goals simp [hl]

/-- Witness for C3's amended theorem: an Error record with length 0 is
rejected, while a Ping record with length 7 still decodes. -/
theorem length_validation_witness :
    Message.from_raw ⟨0, 0x02, 0, [0, 0, 0, 0, 0, 0, 0, 0]⟩ = none ∧
    Message.from_raw ⟨0, 0x1E, 7, [9, 0, 0, 0, 0, 0, 0, 0]⟩ =
      some ( Message.Ping 9) :=
  ⟨(length_validation_amended ⟨0, 0x02, 0, [0, 0, 0, 0, 0, 0, 0, 0]⟩).2.2.2.1
      rfl (by decide),
    by
      have h := (length_validation_amended
        ⟨0, 0x1E, 7, [9, 0, 0, 0, 0, 0, 0, 0]⟩).2.2.2.2.2.2.1 rfl
      simpa using h⟩

/-- Claim C9: an OutputChanged record whose state byte is 2 (Toggle)
produces no collaborator-facing event, while state bytes 0 and 1 are
forwarded as an event carrying the device address, the output index and
the corresponding boolean. -/
theorem output_changed_routing (addr output : Nat) (rest : List Nat) :
    routeInbound ⟨addr, 0x04, 2, output :: 2 :: rest⟩ = none ∧
    routeInbound ⟨addr, 0x04, 2, output :: 0 :: rest⟩ =
      some ( HaEvent.outputChanged addr output false) ∧
    routeInbound ⟨addr, 0x04, 2, output :: 1 :: rest⟩ =
      some ( HaEvent.outputChanged addr output true) := by
  refine ⟨?_, ?_, ?_⟩ <;>
    simp [routeInbound, Message.from_raw, OutputChangeRequest.from_u8,
      OutputChangeRequest.try_to_bool]

end Claims2

end IoGate

namespace IoGate

section Claims3

/-- Claim C6: a chunk whose first byte is not 0x21 yields no record (the
whole chunk is skipped), and after such a chunk a read that delivers a
valid 13-byte frame yields exactly the record extracted from that frame —
the stale buffer tail left by any earlier chunk has no effect on the
result. -/
theorem framer_preamble_rejection :
    (∀ buf read_len, buf.getD 0 0 ≠ 0x21 →
      readerStep buf read_len = ReadResult.skip) ∧
    (∀ b2 b3 b4 b5 b6 b7 b8 b9 b10 b11 b12, b4 ≤ 8 → ∀ old : List Nat,
      readerStep
        ( updateBuf [0x21, 0x7C, b2, b3, b4, b5, b6, b7, b8, b9, b10, b11, b12]
          old) 13 =
      ReadResult.record ⟨b2, b3, b4,
        List.take b4 [b5, b6, b7, b8, b9, b10, b11, b12] ++
          List.replicate (8 - b4) 0⟩) := by
  constructor
  · intro buf read_len h
    unfold readerStep
    rw [if_pos h]
  · intro b2 b3 b4 b5 b6 b7 b8 b9 b10 b11 b12 hb4 old
    unfold readerStep updateBuf
    simp only [List.length_cons, List.length_nil, List.cons_append,
      List.nil_append, List.getD_cons_zero, List.getD_cons_succ,
      List.drop_succ_cons, List.drop_zero, List.take_succ_cons,
      List.take_zero]
    norm_num
    rw [if_pos (by omega : 3 + b4 ≤ 11)]
    unfold MessageRaw.from_bytes
    rw [if_pos (by simp [List.length_take])]
    simp [List.length_take, Nat.min_eq_left hb4]

/-- Witness for C6: a `[0x99, 1, 2]` chunk is skipped, and a subsequent
valid frame chunk over the stale buffer `[9, 9, 9]` yields exactly the
record of the new frame. -/
theorem framer_preamble_rejection_witness :
    readerStep [0x99, 1, 2] 3 = ReadResult.skip ∧
    readerStep ( updateBuf [0x21, 0x7C, 7, 8, 2, 5, 1, 0, 0, 0, 0, 0, 0]
      [9, 9, 9]) 13 =
      ReadResult.record ⟨7, 8, 2, [5, 1, 0, 0, 0, 0, 0, 0]⟩ :=
  ⟨framer_preamble_rejection.1 [0x99, 1, 2] 3 (by decide),
    by
      have h := framer_preamble_rejection.2 7 8 2 5 1 0 0 0 0 0 0 (by decide)
        [9, 9, 9]
      simpa using h⟩

end Claims3

end IoGate

namespace IoGate

section Claims4

/-- Counterexample to C2 as stated: the `Status` variant encodes to
msg_type 0x10, which `from_raw` has no arm for, so decoding the encoding
of `Status 0 0 0` fails instead of returning the message. -/
theorem encode_decode_fails_on_status :
    Message.from_raw (( Message.Status 0 0 0).to_raw 0) = none := by
  decide

/-- Claim C2 as amended: for every device address in [0,63], encoding then
decoding is the identity (with the encoded length matching the layout
table) for Error, OutputChanged, StatusIO, InputChanged, SetOutput,
TriggerInput, RequestStatus, Ping, Pong, TimeAnnouncement, CallProcedure,
and for Info only when its arg field is 0 (the decoder always resets arg
to 0); the Status and ShutterCmd variants encode (lengths 8 and 7) to
msg_types 0x10 and 0x0B that the decoder rejects. -/
theorem encode_decode_roundtrip (addr : Nat) (haddr : addr < 64) :
    (∀ code, code < 4294967296 →
      Message.from_raw (( Message.Error code).to_raw addr) =
        some ( Message.Error code) ∧
      (( Message.Error code).to_raw addr).length = 4) ∧
    (∀ code, code < 65536 → ∀ arg,
      Message.from_raw (( Message.Info code arg).to_raw addr) =
        some ( Message.Info code 0) ∧
      (( Message.Info code arg).to_raw addr).length = 6) ∧
    (∀ output state,
      Message.from_raw (( Message.OutputChanged output state).to_raw addr) =
        some ( Message.OutputChanged output state) ∧
      (( Message.OutputChanged output state).to_raw addr).length = 2) ∧
    (∀ io state,
      Message.from_raw (( Message.StatusIo io state).to_raw addr) =
        some ( Message.StatusIo io state) ∧
      (( Message.StatusIo io state).to_raw addr).length = 3) ∧
    (∀ input trigger,
      Message.from_raw (( Message.InputChanged input trigger).to_raw addr) =
        some ( Message.InputChanged input trigger) ∧
      (( Message.InputChanged input trigger).to_raw addr).length = 2) ∧
    (∀ output state,
      Message.from_raw (( Message.SetOutput output state).to_raw addr) =
        some ( Message.SetOutput output state) ∧
      (( Message.SetOutput output state).to_raw addr).length = 2) ∧
    (∀ input trigger,
      Message.from_raw (( Message.TriggerInput input trigger).to_raw addr) =
        some ( Message.TriggerInput input trigger) ∧
      (( Message.TriggerInput input trigger).to_raw addr).length = 2) ∧
    ( Message.from_raw ( Message.RequestStatus.to_raw addr) =
        some Message.RequestStatus ∧
      ( Message.RequestStatus.to_raw addr).length = 0) ∧
    (∀ body, body < 65536 →
      Message.from_raw (( Message.Ping body).to_raw addr) =
        some ( Message.Ping body) ∧
      (( Message.Ping body).to_raw addr).length = 2) ∧
    (∀ body, body < 65536 →
      Message.from_raw (( Message.Pong body).to_raw addr) =
        some ( Message.Pong body) ∧
      (( Message.Pong body).to_raw addr).length = 2) ∧
    (∀ year, year < 65536 → ∀ month day hour minute second day_of_week,
      Message.from_raw (( Message.TimeAnnouncement year month day hour minute
          second day_of_week).to_raw addr) =
        some ( Message.TimeAnnouncement year month day hour minute second
          day_of_week) ∧
      (( Message.TimeAnnouncement year month day hour minute second
          day_of_week).to_raw addr).length = 8) ∧
    (∀ proc_id,
      Message.from_raw (( Message.CallProcedure proc_id).to_raw addr) =
        some ( Message.CallProcedure proc_id) ∧
      (( Message.CallProcedure proc_id).to_raw addr).length = 1) ∧
    (∀ uptime errors warnings,
      Message.from_raw (( Message.Status uptime errors warnings).to_raw addr) =
        none ∧
      (( Message.Status uptime errors warnings).to_raw addr).length = 8) ∧
    (∀ shutter_idx cmd,
      Message.from_raw (( Message.ShutterCmd shutter_idx cmd).to_raw addr) =
        none ∧
      (( Message.ShutterCmd shutter_idx cmd).to_raw addr).length = 7) := by
  refine ⟨?_, ?_, ?_, ?_, ?_, ?_, ?_, ?_, ?_, ?_, ?_, ?_, ?_, ?_⟩
  · intro code h
    constructor
    · simp [Message.to_raw, Message.from_raw, u32_to_le, u32_from_le]
      omega
    · rfl
  · intro code h arg
    constructor
    · simp [Message.to_raw, Message.from_raw, u16_to_le, u16_from_le,
        u32_to_le]
      omega
    · rfl
  · intro output state
    cases state <;>
      simp [Message.to_raw, Message.from_raw, OutputChangeRequest.to_bytes,
        OutputChangeRequest.from_u8]
  · intro io state
    cases io <;> cases state <;>
      simp [Message.to_raw, Message.from_raw, IOState.to_bytes,
        IOState.from_u8]
  · intro input trigger
    cases trigger <;>
      simp [Message.to_raw, Message.from_raw, Trigger.to_bytes,
        Trigger.from_u8]
  · intro output state
    cases state <;>
      simp [Message.to_raw, Message.from_raw, OutputChangeRequest.to_bytes,
        OutputChangeRequest.from_u8]
  · intro input trigger
    cases trigger <;>
      simp [Message.to_raw, Message.from_raw, Trigger.to_bytes,
        Trigger.from_u8]
  · exact ⟨by simp [Message.to_raw, Message.from_raw], rfl⟩
  · intro body h
    constructor
    · simp [Message.to_raw, Message.from_raw, u16_to_le, u16_from_le]
      omega
    · rfl
  · intro body h
    constructor
    · simp [Message.to_raw, Message.from_raw, u16_to_le, u16_from_le]
      omega
    · rfl
  · intro year h month day hour minute second day_of_week
    constructor
    · simp [Message.to_raw, Message.from_raw, u16_to_le, u16_from_le]
      omega
    · rfl
  · intro proc_id
    exact ⟨by simp [Message.to_raw, Message.from_raw], rfl⟩
  · intro uptime errors warnings
    exact ⟨by simp [Message.to_raw, Message.from_raw], rfl⟩
  · intro shutter_idx cmd
    exact ⟨by simp [Message.to_raw, Message.from_raw], rfl⟩

/-- Witness for C2's amended theorem: Error round-trips at code 123456789
on address 63. -/
theorem encode_decode_roundtrip_witness :
    Message.from_raw (( Message.Error 123456789).to_raw 63) =
      some ( Message.Error 123456789) ∧
    (( Message.Error 123456789).to_raw 63).length = 4 :=
  (encode_decode_roundtrip 63 (by decide)).1 123456789 (by decide)

end Claims4

end IoGate
